import Mathlib

/-!
Verification of the serial protocol engine of `pi_software/robot_control.py`
(UKMarsBot host-side driver).

The embedding models Python `bytes` values as `List Nat` (one `Nat` per byte)
and the serial port as the finite trace of values its read primitives return:
`Port.reads` lists, in order, the successive results of `port.read_until(...)`
(an entry that does not end in the newline byte 0x0A is a read that timed out,
an empty entry is a read that timed out with no data at all; an exhausted list
models a channel that has gone silent, every further read returning `b""`).
`Port.writes` records every byte sequence passed to `port.write`.

The module-level globals `numeric_error_codes` and `echo_on` of the source are
threaded explicitly as a `Globals` record.  Raised exceptions are modelled with
`Except`: `SerialSyncError` carries one of the three distinct message strings
the source raises with, represented by the enumeration `SyncMsg`.

A Python 3 subtlety that matters throughout: indexing a `bytes` object
(`data[0]`) yields an `int`, while `UNSOLICITED_PREFIX` is a `bytes`; in
Python 3 `int == bytes` is always `False` (the comparison is well defined and
returns `False`, it does not raise).  The comparison is embedded faithfully by
`pyEq` over a sum type `PyVal` of the two runtime types involved.
-/

namespace RobotControl

/-- A Python 3 runtime value of one of the two types compared by
`data[0] == UNSOLICITED_PREFIX` in the source: an `int` (what indexing a
`bytes` yields) or a `bytes`. -/
inductive PyVal where
  | int : Nat → PyVal
  | bytes : List Nat → PyVal
deriving DecidableEq

/-- Python 3 equality between the two: values of distinct types among
`int` and `bytes` are never equal (`64 == b"@"` is `False`). -/
def pyEq : PyVal → PyVal → Bool
  | PyVal.int x, PyVal.int y => x == y
  | PyVal.bytes x, PyVal.bytes y => x == y
  | PyVal.int _, PyVal.bytes _ => false
  | PyVal.bytes _, PyVal.int _ => false

/-- The bytes of a Python bytes literal built from ASCII text, one `Nat` per
byte (`b "OK"` is `[79, 75]`). -/
def pyb (s : String) : List Nat := s.toList.map Char.toNat

/-- Python slice `data[-1:]`: the one-byte bytes holding the last byte, or the
empty bytes when `data` is empty. -/
def lastByte (data : List Nat) : List Nat := (data.reverse.take 1).reverse

/-- `NEWLINE = b"\x0A"` (robot_control.py line 95). -/
def NEWLINE : List Nat := pyb "\x0A"

/-- `RESET_STATE_COMMAND = b"^" + NEWLINE` (line 101). -/
def RESET_STATE_COMMAND : List Nat := pyb "^" ++ NEWLINE

/-- `SHOW_VERSION_COMMAND = b"v" + NEWLINE` (line 102). -/
def SHOW_VERSION_COMMAND : List Nat := pyb "v" ++ NEWLINE

/-- `ECHO_OFF_COMMAND = b"E0" + NEWLINE` (line 105). -/
def ECHO_OFF_COMMAND : List Nat := pyb "E0" ++ NEWLINE

/-- `OK_COMMAND = b"?" + NEWLINE` (line 107). -/
def OK_COMMAND : List Nat := pyb "?" ++ NEWLINE

/-- `CONTROL_C_ETX = b"\x03"` (line 113). -/
def CONTROL_C_ETX : List Nat := [3]

/-- `CONTROL_X_CAN = b"\x18"` (line 114). -/
def CONTROL_X_CAN : List Nat := [24]

/-- `UNSOLICITED_PREFIX = b"@"` (line 121). -/
def UNSOLICITED_PREFIX : List Nat := pyb "@"

/-- `ERROR_PREFIX = b"@Error:"` (line 122). -/
def ERROR_PREFIX : List Nat := pyb "@Error:"

/-- `RESET_STATE_RETURN = b"RST"` (line 123). -/
def RESET_STATE_RETURN : List Nat := pyb "RST"

/-- `OK_RESULT_VERBOSE = b"OK"` (line 124). -/
def OK_RESULT_VERBOSE : List Nat := pyb "OK"

/-- `OK_RESULT_NUMERIC = ERROR_PREFIX + b"0"` (line 125). -/
def OK_RESULT_NUMERIC : List Nat := ERROR_PREFIX ++ pyb "0"

/-- The three distinct message strings `SerialSyncError` is raised with in the
source: "Interpreter Error code returned" (line 155), "Unexpected return data"
(line 183), "Newline not found - timeout" (lines 186 and 205). -/
inductive SyncMsg where
  | interpreterErrorCode
  | unexpectedReturnData
  | newlineNotFoundTimeout
deriving DecidableEq

/-- The exception classes of robot_control.py lines 133-143 that the modelled
functions can raise or construct (`SoftReset` and `ShutdownRequest` are never
used by the code under study). -/
inductive RobotException where
  | SerialSyncError : SyncMsg → RobotException
  | MajorError : String → RobotException
deriving DecidableEq

/-- The module-level globals `numeric_error_codes = False` and `echo_on = True`
of robot_control.py lines 88-89, threaded explicitly. -/
structure Globals where
  numeric_error_codes : Bool
  echo_on : Bool
deriving DecidableEq

/-- The serial port: the trace of results of successive `read_until` calls
still to be consumed, and the byte sequences written so far. -/
structure Port where
  reads : List (List Nat)
  writes : List (List Nat)
deriving DecidableEq

/-- `port.write(cmd)`: record the written byte sequence. -/
def port_write (p : Port) (cmd : List Nat) : Port :=
  { p with writes := p.writes ++ [cmd] }

/-- `process_error_code(data)` (lines 153-155): prints the data and raises
`SerialSyncError("Interpreter Error code returned")`. -/
def process_error_code (_data : List Nat) : Except RobotException Unit :=
  Except.error (RobotException.SerialSyncError SyncMsg.interpreterErrorCode)

/-- `process_unsolicited_data(data)` (lines 157-165): if the data starts with
`ERROR_PREFIX`, delegate to `process_error_code`; otherwise print and discard. -/
def process_unsolicited_data (data : List Nat) : Except RobotException Unit :=
  if ERROR_PREFIX.isPrefixOf data then process_error_code data
  else Except.ok ()

/-- `blocking_process_reply(port, expected)` (lines 168-188) on the remaining
read trace.  Per iteration: `data = port.read_until(expected=NEWLINE)`; if
`data[-1:] == NEWLINE` then `data.startswith(expected)` returns `True`, else
`data[0] == UNSOLICITED_PREFIX` (an `int` compared with a `bytes`, so `pyEq`
of a `PyVal.int` with a `PyVal.bytes`) routes to `process_unsolicited_data`
and loops, else `SerialSyncError("Unexpected return data")`; a read without
the newline terminator raises `SerialSyncError("Newline not found - timeout")`
(an exhausted trace is a read returning `b""`, which has no terminator).
Returns the source's `True` together with the unconsumed part of the trace. -/
def blocking_process_reply (expected : List Nat) :
    List (List Nat) → Except RobotException (Bool × List (List Nat))
  | [] => Except.error (RobotException.SerialSyncError SyncMsg.newlineNotFoundTimeout)
  | data :: rest =>
    if lastByte data = NEWLINE then
      if expected.isPrefixOf data then Except.ok (true, rest)
      else if pyEq (PyVal.int (data.headD 0)) (PyVal.bytes UNSOLICITED_PREFIX) then
        match process_unsolicited_data data with
        | Except.ok _ => blocking_process_reply expected rest
        | Except.error e => Except.error e
      else Except.error (RobotException.SerialSyncError SyncMsg.unexpectedReturnData)
    else Except.error (RobotException.SerialSyncError SyncMsg.newlineNotFoundTimeout)

/-- `blocking_get_reply(port)` (lines 190-207) on the remaining read trace.
Per iteration: if `data[-1:] == NEWLINE` then `data[0] == UNSOLICITED_PREFIX`
(again `int` against `bytes`) routes to `process_unsolicited_data` and loops,
else the data (newline included) is returned; a read without the terminator
raises `SerialSyncError("Newline not found - timeout")`.  Returns the reply
together with the unconsumed part of the trace. -/
def blocking_get_reply :
    List (List Nat) → Except RobotException (List Nat × List (List Nat))
  | [] => Except.error (RobotException.SerialSyncError SyncMsg.newlineNotFoundTimeout)
  | data :: rest =>
    if lastByte data = NEWLINE then
      if pyEq (PyVal.int (data.headD 0)) (PyVal.bytes UNSOLICITED_PREFIX) then
        match process_unsolicited_data data with
        | Except.ok _ => blocking_get_reply rest
        | Except.error e => Except.error e
      else Except.ok (data, rest)
    else Except.error (RobotException.SerialSyncError SyncMsg.newlineNotFoundTimeout)

/-- `clear_replies(port)` (lines 210-219) on the remaining read trace: loop
while the read contains the newline byte (`NEWLINE in data`; `NEWLINE` is the
single byte 0x0A, so this is byte membership), routing `data[0] == b"@"`
(once more `int` against `bytes`) through `process_unsolicited_data`; break on
the first read with no newline.  Returns the unconsumed part of the trace. -/
def clear_replies :
    List (List Nat) → Except RobotException (List (List Nat))
  | [] => Except.ok []
  | data :: rest =>
    if 10 ∈ data then
      if pyEq (PyVal.int (data.headD 0)) (PyVal.bytes (pyb "@")) then
        match process_unsolicited_data data with
        | Except.ok _ => clear_replies rest
        | Except.error e => Except.error e
      else clear_replies rest
    else Except.ok rest

/-- `do_ok_test(port)` (lines 245-251): write `OK_COMMAND`, then expect
`OK_RESULT_NUMERIC` when the global `numeric_error_codes` is set and
`OK_RESULT_VERBOSE` otherwise. -/
def do_ok_test (g : Globals) (p : Port) : Except RobotException (Globals × Port) :=
  let p1 := port_write p OK_COMMAND
  if g.numeric_error_codes then
    match blocking_process_reply OK_RESULT_NUMERIC p1.reads with
    | Except.ok (_, rest) => Except.ok (g, { p1 with reads := rest })
    | Except.error e => Except.error e
  else
    match blocking_process_reply OK_RESULT_VERBOSE p1.reads with
    | Except.ok (_, rest) => Except.ok (g, { p1 with reads := rest })
    | Except.error e => Except.error e

/-- `get_version(port)` (lines 253-257): write `SHOW_VERSION_COMMAND`, get a
reply, print it (the print is pure output and is dropped here). -/
def get_version (g : Globals) (p : Port) : Except RobotException (Globals × Port) :=
  let p1 := port_write p SHOW_VERSION_COMMAND
  match blocking_get_reply p1.reads with
  | Except.ok (_reply, rest) => Except.ok (g, { p1 with reads := rest })
  | Except.error e => Except.error e

/-- `set_echo_off(port)` (lines 259-266): write `ECHO_OFF_COMMAND`, run
`clear_replies`, set the global `echo_on = False`. -/
def set_echo_off (g : Globals) (p : Port) : Except RobotException (Globals × Port) :=
  let p1 := port_write p ECHO_OFF_COMMAND
  match clear_replies p1.reads with
  | Except.ok rest => Except.ok ({ g with echo_on := false }, { p1 with reads := rest })
  | Except.error e => Except.error e

/-- `set_numeric_error_codes(port)` (lines 277-278): the body is the single
statement `MajorError("Unimplemented")`, which constructs the exception value
and discards it without raising; nothing is written and no global changes. -/
def set_numeric_error_codes (g : Globals) (p : Port) :
    Except RobotException (Globals × Port) :=
  let _discarded := RobotException.MajorError "Unimplemented"
  Except.ok (g, p)

/-- `set_text_error_codes(port)` (lines 280-281): same unraised construction. -/
def set_text_error_codes (g : Globals) (p : Port) :
    Except RobotException (Globals × Port) :=
  let _discarded := RobotException.MajorError "Unimplemented"
  Except.ok (g, p)

/-- `get_switches(port)` (lines 283-284): same unraised construction. -/
def get_switches (g : Globals) (p : Port) :
    Except RobotException (Globals × Port) :=
  let _discarded := RobotException.MajorError "Unimplemented"
  Except.ok (g, p)

/-- `get_sensors(port)` (lines 286-287): same unraised construction. -/
def get_sensors (g : Globals) (p : Port) :
    Except RobotException (Globals × Port) :=
  let _discarded := RobotException.MajorError "Unimplemented"
  Except.ok (g, p)

/-- `set_led(port)` (lines 289-290): same unraised construction. -/
def set_led (g : Globals) (p : Port) :
    Except RobotException (Globals × Port) :=
  let _discarded := RobotException.MajorError "Unimplemented"
  Except.ok (g, p)

/-- One pass of the counter bookkeeping at the end of each iteration of the
reset loop of `reset_arduino` (lines 317-320): `count -= 1`, then
`if count <= 0: count = 200`. -/
def reset_poll_step (count : Int) : Int :=
  let c1 := count - 1
  if c1 ≤ 0 then 200 else c1

/-- The polling loop of `reset_arduino` (lines 305-320) over the trace of the
batches `port.readlines()` returns per iteration.  Per iteration: scan the
batch for a line starting with `RESET_STATE_RETURN` (setting `found`), then
update the counter with `reset_poll_step`; the `while not found` condition
exits after the iteration that saw the token.  `none` means the trace ended
with the loop still polling (the source loop has no other exit). -/
def reset_poll_loop :
    Int → List (List (List Nat)) → Option (Int × List (List (List Nat)))
  | _, [] => none
  | count, lines :: rest =>
    if lines.any (fun l => RESET_STATE_RETURN.isPrefixOf l) then
      some (reset_poll_step count, rest)
    else reset_poll_loop (reset_poll_step count) rest

/-- `reset_arduino(port)` (lines 292-329): write the two control bytes, run
the polling loop with the counter starting at `count = 50` (line 306) over the
`readlines` batches in `polls` (one `RESET_STATE_COMMAND` written per poll),
then `clear_replies`, `set_echo_off` twice, `do_ok_test`, `get_version`,
`set_numeric_error_codes`, `do_ok_test`.  `none` when the polling loop never
sees the reset token within the trace (the source would still be looping). -/
def reset_arduino (g : Globals) (polls : List (List (List Nat))) (p : Port) :
    Option (Except RobotException (Globals × Port)) :=
  let p1 := port_write (port_write p CONTROL_C_ETX) CONTROL_X_CAN
  match reset_poll_loop 50 polls with
  | none => none
  | some (_count, remaining) =>
    let p2 : Port :=
      { p1 with
        writes :=
          p1.writes ++ List.replicate (polls.length - remaining.length) RESET_STATE_COMMAND }
    some (do
      let rest ← clear_replies p2.reads
      let gp1 ← set_echo_off g { p2 with reads := rest }
      let gp2 ← set_echo_off gp1.1 gp1.2
      let gp3 ← do_ok_test gp2.1 gp2.2
      let gp4 ← get_version gp3.1 gp3.2
      let gp5 ← set_numeric_error_codes gp4.1 gp4.2
      do_ok_test gp5.1 gp5.2)

/-! Helper lemmas shared by the claim theorems. -/

/-- A Python 3 `int` is never `==` to a `bytes`: the comparison
`data[0] == UNSOLICITED_PREFIX` in the reply loops is identically false. -/
theorem pyEq_int_bytes (x : Nat) (l : List Nat) :
    pyEq (PyVal.int x) (PyVal.bytes l) = false := rfl

/-- `clear_replies` never raises: the only raising path goes through the
`data[0] == b"@"` comparison, which is an `int` against a `bytes`. -/
theorem clear_replies_ok (reads : List (List Nat)) :
    ∃ rest, clear_replies reads = Except.ok rest := by
  induction reads with
  | nil => exact ⟨[], rfl⟩
  | cons d rest ih =>
    by_cases h : (10 : Nat) ∈ d
    · simpa [clear_replies, h, pyEq_int_bytes] using ih
    · exact ⟨rest, by simp [clear_replies, h]⟩

/-- The reset-loop counter update always yields a positive counter. -/
theorem reset_poll_step_pos (c : Int) : 0 < reset_poll_step c := by
  show 0 < if c - 1 ≤ 0 then (200 : Int) else c - 1
  split <;> omega

/-- With no reset-acknowledgement line anywhere in the trace, the polling
loop consumes the whole trace and is still polling, for every counter value. -/
theorem reset_poll_loop_no_token (polls : List (List (List Nat)))
    (hno : ∀ lines ∈ polls, ∀ l ∈ lines, RESET_STATE_RETURN.isPrefixOf l = false) :
    ∀ c : Int, reset_poll_loop c polls = none := by
  induction polls with
  | nil => intro c; rfl
  | cons lines rest ih =>
    intro c
    have hany : (lines.any fun l => RESET_STATE_RETURN.isPrefixOf l) = false := by
      simp only [List.any_eq_false]
      intro l hl
      simp [hno lines (by simp) l hl]
    simp only [reset_poll_loop, hany]
    simp only [Bool.false_eq_true, if_false]
    exact ih (fun ls hls l hl => hno ls (by simp [hls]) l hl) (reset_poll_step c)

/-- After any number of acknowledgement-free polls, the first poll containing
a reset-acknowledgement line ends the loop, with a positive counter. -/
theorem reset_poll_loop_found (polls : List (List (List Nat)))
    (hno : ∀ lines ∈ polls, ∀ l ∈ lines, RESET_STATE_RETURN.isPrefixOf l = false) :
    ∀ (c : Int) (lines : List (List Nat)) (rest : List (List (List Nat))),
      (∃ l ∈ lines, RESET_STATE_RETURN.isPrefixOf l = true) →
      ∃ cOut, reset_poll_loop c (polls ++ lines :: rest) = some (cOut, rest) ∧ 0 < cOut := by
  induction polls with
  | nil =>
    intro c lines rest hfound
    have hany : (lines.any fun l => RESET_STATE_RETURN.isPrefixOf l) = true := by
      simp only [List.any_eq_true]
      exact hfound
    exact ⟨reset_poll_step c, by simp [reset_poll_loop, hany], reset_poll_step_pos c⟩
  | cons lines0 rest0 ih =>
    intro c lines rest hfound
    have hany : (lines0.any fun l => RESET_STATE_RETURN.isPrefixOf l) = false := by
      simp only [List.any_eq_false]
      intro l hl
      simp [hno lines0 (by simp) l hl]
    simp only [List.cons_append, reset_poll_loop, hany, Bool.false_eq_true, if_false]
    exact ih (fun ls hls l hl => hno ls (by simp [hls]) l hl) (reset_poll_step c) lines rest hfound

/-! The claim theorems. -/

/-- C1 (code bug witnessed at the failing input): a received frame beginning
with `@` but not `@Error:` is NOT discarded.  In `blocking_get_reply` the
frame `@Low battery\n` is returned as the successful reply, so the scenario-D
trace yields `@Low battery\n`, not `V2.1\n`; in `blocking_process_reply` the
same frame raises `SerialSyncError("Unexpected return data")` instead of
being skipped.  The third conjunct shows the handler the source intended to
route such frames through would indeed have discarded the frame: the check
`data[0] == UNSOLICITED_PREFIX` guarding it compares an `int` with a `bytes`
and is always false. -/
theorem unsolicited_frames_not_discarded :
    blocking_get_reply [pyb "@Low battery\n", pyb "V2.1\n"] =
      Except.ok (pyb "@Low battery\n", [pyb "V2.1\n"]) ∧
    blocking_process_reply OK_RESULT_VERBOSE [pyb "@Low battery\n", pyb "OK\n"] =
      Except.error (RobotException.SerialSyncError SyncMsg.unexpectedReturnData) ∧
    process_unsolicited_data (pyb "@Low battery\n") = Except.ok () :=
  ⟨rfl, rfl, rfl⟩

/-- C2 (code bug witnessed at the failing input): `blocking_get_reply` returns
the frame `@Error:5\n` as a successful reply instead of raising
`SerialSyncError`, because the `data[0] == UNSOLICITED_PREFIX` guard in front
of `process_unsolicited_data` is an `int`-versus-`bytes` comparison and never
fires.  The second conjunct shows the handler it guards would have raised
`SerialSyncError("Interpreter Error code returned")` on that frame, as the
claim and the source's own error-handling functions intend. -/
theorem error_frame_returned_by_get_reply :
    blocking_get_reply [pyb "@Error:5\n"] = Except.ok (pyb "@Error:5\n", []) ∧
    process_unsolicited_data (pyb "@Error:5\n") =
      Except.error (RobotException.SerialSyncError SyncMsg.interpreterErrorCode) :=
  ⟨rfl, rfl⟩

/-- C3 counterexample: a frame with the expected token as a strict prefix of
longer content (`OKAY\n` against expected `OK`) DOES count as success, because
the source matches with `data.startswith(expected)`; and a wait in which an
unsolicited frame arrives before the exactly-matching frame does not succeed
but raises `SerialSyncError("Unexpected return data")`. -/
theorem exact_match_counterexample :
    blocking_process_reply OK_RESULT_VERBOSE [pyb "OKAY\n"] = Except.ok (true, []) ∧
    blocking_process_reply OK_RESULT_VERBOSE [pyb "@note\n", pyb "OK\n"] =
      Except.error (RobotException.SerialSyncError SyncMsg.unexpectedReturnData) :=
  ⟨rfl, rfl⟩

/-- C3 as amended: `blocking_process_reply` returns success if and only if the
very first read of the wait is a newline-terminated frame that BEGINS with the
expected token; every other first read (error, unsolicited and unexpected
frames alike, or a read without terminator) ends the wait with an exception,
so no later frame can produce success. -/
theorem wait_for_exact_first_frame (expected : List Nat) (reads : List (List Nat)) :
    (∃ res rest, blocking_process_reply expected reads = Except.ok (res, rest)) ↔
      (∃ d rest, reads = d :: rest ∧ lastByte d = NEWLINE ∧ expected.isPrefixOf d = true) := by
  cases reads with
  | nil => simp [blocking_process_reply]
  | cons d rest =>
    by_cases h1 : lastByte d = NEWLINE
    · by_cases h2 : expected.isPrefixOf d
      · constructor
        · intro _
          exact ⟨d, rest, rfl, h1, h2⟩
        · intro _
          exact ⟨true, rest, by simp [blocking_process_reply, h1, h2]⟩
      · simp [blocking_process_reply, h1, h2, pyEq_int_bytes]
        exact fun hp => h2 (List.isPrefixOf_iff_prefix.mpr hp)
    · simp [blocking_process_reply, h1]

/-- C4 counterexample: a complete, successful run of `reset_arduino` from the
initial globals in which the device answers the final acknowledgement test
with the VERBOSE token `OK\n`.  The run ends with `numeric_error_codes` still
`false` (the claim says it becomes true), and the write log shows no
error-mode command was ever sent between the version query and the final
`?\n` — `set_numeric_error_codes` wrote nothing. -/
theorem numeric_mode_never_entered :
    reset_arduino { numeric_error_codes := false, echo_on := true } [[pyb "RST\n"]]
        { reads := [[], [], [], pyb "OK\n", pyb "V2.1\n", pyb "OK\n"], writes := [] } =
      some (Except.ok ({ numeric_error_codes := false, echo_on := false },
        { reads := [],
          writes := [CONTROL_C_ETX, CONTROL_X_CAN, RESET_STATE_COMMAND, ECHO_OFF_COMMAND,
            ECHO_OFF_COMMAND, OK_COMMAND, SHOW_VERSION_COMMAND, OK_COMMAND] })) :=
  rfl

/-- C4 as amended: in the final step of `reset_arduino`,
`set_numeric_error_codes` is an unimplemented stub that changes nothing (the
link state keeps `numeric_error_codes = false` and nothing is written), so the
re-run acknowledgement test still expects the verbose token `OK`: it succeeds
on the frame `OK\n` and raises `SerialSyncError("Unexpected return data")` on
the numeric token frame `@Error:0\n`. -/
theorem numeric_mode_stub_behaviour (g : Globals) (p : Port)
    (hg : g.numeric_error_codes = false) :
    set_numeric_error_codes g p = Except.ok (g, p) ∧
    (∀ rest w, do_ok_test g { reads := (OK_RESULT_VERBOSE ++ NEWLINE) :: rest, writes := w } =
        Except.ok (g, { reads := rest, writes := w ++ [OK_COMMAND] })) ∧
    (∀ rest w, do_ok_test g { reads := (OK_RESULT_NUMERIC ++ NEWLINE) :: rest, writes := w } =
        Except.error (RobotException.SerialSyncError SyncMsg.unexpectedReturnData)) := by
  refine ⟨rfl, fun rest w => ?_, fun rest w => ?_⟩ <;>
    · unfold do_ok_test
      rw [hg]
      rfl

/-- C4 witness: the amended behaviour at the concrete link state reached by
`reset_arduino` after its poll loop. -/
theorem numeric_mode_stub_behaviour_witness :
    set_numeric_error_codes { numeric_error_codes := false, echo_on := false }
        { reads := [], writes := [] } =
      Except.ok ({ numeric_error_codes := false, echo_on := false },
        { reads := [], writes := [] }) ∧
    do_ok_test { numeric_error_codes := false, echo_on := false }
        { reads := (OK_RESULT_VERBOSE ++ NEWLINE) :: [], writes := [] } =
      Except.ok ({ numeric_error_codes := false, echo_on := false },
        { reads := [], writes := [OK_COMMAND] }) ∧
    do_ok_test { numeric_error_codes := false, echo_on := false }
        { reads := (OK_RESULT_NUMERIC ++ NEWLINE) :: [], writes := [] } =
      Except.error (RobotException.SerialSyncError SyncMsg.unexpectedReturnData) := by
  have h := numeric_mode_stub_behaviour { numeric_error_codes := false, echo_on := false }
    { reads := [], writes := [] } rfl
  exact ⟨h.1, h.2.1 [] [], h.2.2 [] []⟩

/-- C5 counterexample: the frame `@Error:0\n` starts with `ERROR_PREFIX`, yet
with expected token `@Error:0` it is classified Expected (success), so the
error check does NOT precede the expected check; and the non-error unsolicited
frame `@info\n` is classified Unexpected (it raises), not Unsolicited. -/
theorem classification_precedence_counterexample :
    ERROR_PREFIX.isPrefixOf (pyb "@Error:0\n") = true ∧
    blocking_process_reply OK_RESULT_NUMERIC [pyb "@Error:0\n"] = Except.ok (true, []) ∧
    blocking_process_reply OK_RESULT_VERBOSE [pyb "@info\n"] =
      Except.error (RobotException.SerialSyncError SyncMsg.unexpectedReturnData) :=
  ⟨rfl, rfl, rfl⟩

/-- C5 as amended: classification in `blocking_process_reply` checks the
expected token FIRST — a newline-terminated frame beginning with the expected
token is Expected even when it also begins with `@Error:` — and every other
newline-terminated frame (whether it starts with `@Error:`, with `@`, or with
neither) takes the single remaining path and raises
`SerialSyncError("Unexpected return data")`; the Unsolicited/ErrorNotification
routing behind the `data[0] == UNSOLICITED_PREFIX` guard is unreachable.
Exactly one of the two outcomes applies to each frame. -/
theorem classification_precedence_actual (expected d : List Nat) (rest : List (List Nat))
    (hterm : lastByte d = NEWLINE) :
    (expected.isPrefixOf d = true →
      blocking_process_reply expected (d :: rest) = Except.ok (true, rest)) ∧
    (expected.isPrefixOf d = false →
      blocking_process_reply expected (d :: rest) =
        Except.error (RobotException.SerialSyncError SyncMsg.unexpectedReturnData)) := by
  constructor <;> intro h <;> simp [blocking_process_reply, hterm, h, pyEq_int_bytes]

/-- C5 witness: both branches of the amended classification at concrete
frames. -/
theorem classification_precedence_actual_witness :
    blocking_process_reply OK_RESULT_NUMERIC [pyb "@Error:0\n"] = Except.ok (true, []) ∧
    blocking_process_reply OK_RESULT_NUMERIC [pyb "V2.1\n"] =
      Except.error (RobotException.SerialSyncError SyncMsg.unexpectedReturnData) :=
  ⟨(classification_precedence_actual OK_RESULT_NUMERIC (pyb "@Error:0\n") [] (by decide)).1
      (by decide),
    (classification_precedence_actual OK_RESULT_NUMERIC (pyb "V2.1\n") [] (by decide)).2
      (by decide)⟩

/-- C6: with `numeric_error_codes` set, `do_ok_test` writes `?\n` and the
reply `@Error:0\n` makes the wait succeed — it is matched as the numeric
success token `OK_RESULT_NUMERIC`, not treated as an error notification. -/
theorem numeric_ok_token_accepted (g : Globals) (rest w : List (List Nat))
    (hg : g.numeric_error_codes = true) :
    do_ok_test g { reads := (OK_RESULT_NUMERIC ++ NEWLINE) :: rest, writes := w } =
      Except.ok (g, { reads := rest, writes := w ++ [OK_COMMAND] }) := by
  unfold do_ok_test
  rw [hg]
  rfl

/-- C6 witness: the numeric-mode acknowledgement test at a concrete state. -/
theorem numeric_ok_token_accepted_witness :
    do_ok_test { numeric_error_codes := true, echo_on := false }
        { reads := (OK_RESULT_NUMERIC ++ NEWLINE) :: [], writes := [] } =
      Except.ok ({ numeric_error_codes := true, echo_on := false },
        { reads := [], writes := [OK_COMMAND] }) :=
  numeric_ok_token_accepted { numeric_error_codes := true, echo_on := false } [] [] rfl

/-- C7: the reset-polling loop of `reset_arduino` (entered with the counter at
50) never aborts: on a trace with no `RST`-prefixed line it consumes every
poll and is still polling (first conjunct, and fifth conjunct for the whole of
`reset_arduino`); as soon as a poll contains an `RST`-prefixed line the loop
ends, with the counter still positive (second conjunct); the per-poll counter
update decrements by one while the result stays positive and resets the
counter to 200 the moment it would reach zero (third and fourth conjuncts). -/
theorem reset_counter_recovers (polls : List (List (List Nat)))
    (hno : ∀ lines ∈ polls, ∀ l ∈ lines, RESET_STATE_RETURN.isPrefixOf l = false) :
    reset_poll_loop 50 polls = none ∧
    (∀ lines rest, (∃ l ∈ lines, RESET_STATE_RETURN.isPrefixOf l = true) →
      ∃ cOut, reset_poll_loop 50 (polls ++ lines :: rest) = some (cOut, rest) ∧ 0 < cOut) ∧
    (∀ c : Int, 0 < c - 1 → reset_poll_step c = c - 1) ∧
    (∀ c : Int, c - 1 ≤ 0 → reset_poll_step c = 200) ∧
    (∀ g p, reset_arduino g polls p = none) := by
  refine ⟨reset_poll_loop_no_token polls hno 50,
    fun lines rest h => reset_poll_loop_found polls hno 50 lines rest h,
    fun c hc => ?_, fun c hc => ?_, fun g p => ?_⟩
  · show (if c - 1 ≤ 0 then (200 : Int) else c - 1) = c - 1
    rw [if_neg (by omega)]
  · show (if c - 1 ≤ 0 then (200 : Int) else c - 1) = 200
    rw [if_pos hc]
  · unfold reset_arduino
    rw [reset_poll_loop_no_token polls hno 50]

/-- C7 witness: sixty acknowledgement-free polls (the counter, started at 50,
crosses zero at the fiftieth and is reset to 200) leave the loop polling, and
an `RST\n` line in the sixty-first poll still ends it; reaching zero maps the
counter to 200. -/
theorem reset_counter_recovers_witness :
    reset_poll_loop 50 (List.replicate 60 []) = none ∧
    (∃ cOut, reset_poll_loop 50 (List.replicate 60 [] ++ [pyb "RST\n"] :: []) =
        some (cOut, []) ∧ 0 < cOut) ∧
    reset_poll_step 1 = 200 := by
  have h := reset_counter_recovers (List.replicate 60 []) (by decide)
  exact ⟨h.1, h.2.1 [pyb "RST\n"] [] ⟨pyb "RST\n", by simp, by decide⟩,
    h.2.2.2.1 1 (by decide)⟩

/-- C8: a read that ends without the newline terminator (an empty or partial
read, i.e. a timeout) makes both reply waits raise
`SerialSyncError("Newline not found - timeout")`: the partial bytes are never
returned as a reply and never matched against the expected token. -/
theorem timeout_no_partial (expected d : List Nat) (rest : List (List Nat))
    (h : lastByte d ≠ NEWLINE) :
    blocking_process_reply expected (d :: rest) =
      Except.error (RobotException.SerialSyncError SyncMsg.newlineNotFoundTimeout) ∧
    blocking_get_reply (d :: rest) =
      Except.error (RobotException.SerialSyncError SyncMsg.newlineNotFoundTimeout) := by
  constructor <;> simp [blocking_process_reply, blocking_get_reply, h]

/-- C8 witness: a partial read `OK` with no terminator — although it begins
with the expected verbose token, it is a timeout, not a success. -/
theorem timeout_no_partial_witness :
    blocking_process_reply OK_RESULT_VERBOSE [pyb "OK"] =
      Except.error (RobotException.SerialSyncError SyncMsg.newlineNotFoundTimeout) ∧
    blocking_get_reply [pyb "OK"] =
      Except.error (RobotException.SerialSyncError SyncMsg.newlineNotFoundTimeout) :=
  timeout_no_partial OK_RESULT_VERBOSE (pyb "OK") [] (by decide)

/-- C9: two consecutive `set_echo_off` calls, from any link state and any
read trace, both complete and leave `echo_on = false` (after the first call
already, and still after the second). -/
theorem set_echo_off_twice (g : Globals) (p : Port) :
    ∃ gp1 gp2,
      set_echo_off g p = Except.ok gp1 ∧
      set_echo_off gp1.1 gp1.2 = Except.ok gp2 ∧
      gp1.1.echo_on = false ∧ gp2.1.echo_on = false := by
  obtain ⟨r1, h1⟩ := clear_replies_ok ((port_write p ECHO_OFF_COMMAND).reads)
  obtain ⟨r2, h2⟩ := clear_replies_ok
      ((port_write { port_write p ECHO_OFF_COMMAND with reads := r1 } ECHO_OFF_COMMAND).reads)
  refine ⟨({ g with echo_on := false },
      { port_write p ECHO_OFF_COMMAND with reads := r1 }),
    ({ g with echo_on := false },
      { port_write { port_write p ECHO_OFF_COMMAND with reads := r1 } ECHO_OFF_COMMAND with
          reads := r2 }), ?_, ?_, rfl, rfl⟩
  · simp [set_echo_off, h1]
  · simp [set_echo_off, h2]

/-- C10: each of the five stub commands returns normally with `Except.ok`
(the `MajorError` value their bodies construct is discarded, never raised),
writes nothing to the port and leaves both globals unchanged: the result
carries back exactly the input `Globals` and `Port`. -/
theorem stub_commands_no_effect (g : Globals) (p : Port) :
    set_numeric_error_codes g p = Except.ok (g, p) ∧
    set_text_error_codes g p = Except.ok (g, p) ∧
    get_switches g p = Except.ok (g, p) ∧
    get_sensors g p = Except.ok (g, p) ∧
    set_led g p = Except.ok (g, p) :=
  ⟨rfl, rfl, rfl, rfl, rfl⟩

end RobotControl
